import Mathlib

/-!
Verification of the smart-home controller core (src/smart_home_controller.py).

The source keeps a fixed in-memory dict of four devices (`light1`, `fan1`,
`thermo1`, `door1`), a log list, a power-history list, a pub/sub message
handler, a background simulator loop and per-device UI mutation handlers.
Here every float the program manipulates (40.0, 20.0, 500.0, setpoints in
[10, 30]) is modelled by a rational number: all values the program can produce
are sums and products of small decimal constants, which IEEE doubles represent
and combine exactly, so `Rat` is a faithful model of the float arithmetic.
-/

/-- The `light1` record of the `devices` dict: field `is_on`. -/
structure Light where
  is_on : Bool
  deriving Repr, DecidableEq

/-- The `fan1` record: field `speed` (a Python int; the comment says 0..3). -/
structure Fan where
  speed : Int
  deriving Repr, DecidableEq

/-- The `thermo1` record: field `setpoint` in degrees C. -/
structure Thermo where
  setpoint : Rat
  deriving Repr, DecidableEq

/-- The `door1` record: field `locked`. -/
structure Door where
  locked : Bool
  deriving Repr, DecidableEq

/-- The `devices` dict. Its key set is fixed for the whole program run
(the four literal keys of lines 16-41), so it is modelled as a record with
one field per key. -/
structure Devices where
  light1 : Light
  fan1 : Fan
  thermo1 : Thermo
  door1 : Door
  deriving Repr, DecidableEq

/-- The initial `devices` dict: light off, fan speed 0, setpoint 22.0,
door locked. -/
def devices0 : Devices :=
  { light1 := { is_on := false }
    fan1 := { speed := 0 }
    thermo1 := { setpoint := 22 }
    door1 := { locked := true } }

/-- A value stored in the `devices` dict, tagged by its `type` string. -/
inductive Device
  | light : Light → Device
  | fan : Fan → Device
  | thermostat : Thermo → Device
  | door : Door → Device
  deriving Repr, DecidableEq

/-- `devices.get(dev_id)` (line 515): dict lookup over the four fixed keys;
any other id is a miss (`None`), not an error. -/
def Devices.get (ds : Devices) : String → Option Device
  | "light1" => some (Device.light ds.light1)
  | "fan1" => some (Device.fan ds.fan1)
  | "thermo1" => some (Device.thermostat ds.thermo1)
  | "door1" => some (Device.door ds.door1)
  | _ => none

/-- `compute_total_power` (lines 68-90): accumulates 40.0 if the light is on,
plus `speed * 20.0`, plus 500.0 if the setpoint exceeds 20.0; the door is not
read at all. -/
def compute_total_power (ds : Devices) : Rat :=
  let total : Rat := 0
  let light := ds.light1
  let fan := ds.fan1
  let thermo := ds.thermo1
  let total := if light.is_on then total + 40 else total
  let total := total + (fan.speed : Rat) * 20
  let total := if thermo.setpoint > 20 then total + 500 else total
  total

/-- State-passing reading of `compute_total_power`: the Python function only
reads the `devices` dict and writes nothing, so each access threads the
registry through unchanged and the function returns it as it found it. -/
def compute_total_power_run (ds : Devices) : Rat × Devices :=
  let total : Rat := 0
  let light := ds.light1
  let fan := ds.fan1
  let thermo := ds.thermo1
  let total := if light.is_on then total + 40 else total
  let total := total + (fan.speed : Rat) * 20
  let total := if thermo.setpoint > 20 then total + 500 else total
  (total, ds)

/-- A log record as published by `publish_log` (lines 57-66) and stored in
`logs`. -/
structure LogEntry where
  device_id : String
  action : String
  user : String
  timestamp : String
  deriving Repr, DecidableEq

/-- A pub/sub message as seen by `handle_message` (lines 133-167). Python
passes dicts; the handler distinguishes non-dict values, dicts whose
`"type"` is `"log"`, dicts whose `"type"` is `"power_sample"`, and dicts
with any other (or no) `"type"`, so messages are modelled as this tagged
union. -/
inductive Msg
  | log : LogEntry → Msg
  | power_sample : Nat → Rat → Msg
  | otherDict : Option String → Msg
  | nonDict : Msg
  deriving Repr, DecidableEq

/-- The mutable state `handle_message` and the UI handlers touch: the
`devices` dict, the `logs` list, and the `power_history` list of
`(time_index, total_power)` pairs. -/
structure SysState where
  devices : Devices
  logs : List LogEntry
  power_history : List (Nat × Rat)
  deriving Repr, DecidableEq

/-- The state at program start: `devices` as initialised, `logs = []`,
`power_history = []` (lines 16-47). -/
def initial_state : SysState :=
  { devices := devices0, logs := [], power_history := [] }

/-- The power-sample branch of `handle_message` (lines 161-163): append the
pair, then if the list length exceeds 50 pop the front element. -/
def powerAppend (h : List (Nat × Rat)) (tp : Nat × Rat) : List (Nat × Rat) :=
  let h2 := h ++ [tp]
  if h2.length > 50 then h2.drop 1 else h2

/-- `handle_message` (lines 133-167), restricted to its effect on program
state: non-dict messages return immediately; `"log"` messages append the
entry to `logs`; `"power_sample"` messages append to `power_history` with
the 50-entry cap; any other dict falls through both branches and does
nothing. (The UI-refresh calls in the handler touch no model state.) -/
def handle_message (st : SysState) (msg : Msg) : SysState :=
  match msg with
  | Msg.log entry => { st with logs := st.logs ++ [entry] }
  | Msg.power_sample t p =>
      { st with power_history := powerAppend st.power_history (t, p) }
  | Msg.otherDict _ => st
  | Msg.nonDict => st

/-- `simulator_task` (lines 175-188), unrolled for a finite number of ticks:
the loop keeps a counter `t`, publishes
`{"type": "power_sample", "time": t, "total_power": compute_total_power()}`
each tick, then increments `t`. Device state may change between ticks, so the
registry contents at tick `t` are given by a function `σ`. `simulator_task σ
t n` is the list of messages published by `n` ticks starting from counter
value `t`; the loop starts at `t = 0` (line 177). -/
def simulator_task (σ : Nat → Devices) : Nat → Nat → List Msg
  | _, 0 => []
  | t, n + 1 =>
      Msg.power_sample t (compute_total_power (σ t)) :: simulator_task σ (t + 1) n

/-- `toggle_light` (lines 203-214), restricted to its effect on `devices`:
it flips `light1["is_on"]` and touches no other device field. (It also
publishes a log message and updates widget text, which is not device
state.) -/
def toggle_light (ds : Devices) : Devices :=
  { ds with light1 := { is_on := !ds.light1.is_on } }

/-- `toggle_door` (lines 372-383), restricted to its effect on `devices`:
it flips `door1["locked"]` and touches no other device field. -/
def toggle_door (ds : Devices) : Devices :=
  { ds with door1 := { locked := !ds.door1.locked } }

/-- The fan card's `on_change` (lines 261-266), restricted to its effect on
`devices`: it stores `int(e.control.value)` into `fan1["speed"]`
unconditionally — there is no range check and no error path in the handler;
the [0,3] domain is imposed only by the slider's configuration
(`min=0, max=3, divisions=3`). -/
def on_change_fan (ds : Devices) (value : Int) : Devices :=
  { ds with fan1 := { speed := value } }

/-- The thermostat card's `on_change` (lines 317-322), restricted to its
effect on `devices`: it stores the slider value into
`thermo1["setpoint"]`. -/
def on_change_thermo (ds : Devices) (value : Rat) : Devices :=
  { ds with thermo1 := { setpoint := value } }

/-- A kind-specific mutation command, as in the spec's registry contract. -/
inductive Command
  | setLightOn : Bool → Command
  | setFanSpeed : Int → Command
  | setThermostatSetpoint : Rat → Command
  | setDoorLocked : Bool → Command
  deriving Repr, DecidableEq

/-- The spec's mutation error taxonomy. -/
inductive MutError
  | NotFound
  | InvalidCommand
  | OutOfRange
  deriving Repr, DecidableEq

/-- Modelled from the spec: the registry operation `mutate(id, command)` of
spec section 4.1 is missing from the source — the source's mutation handlers
are per-device UI callbacks, and its only id-addressed lookup
(`devices.get(dev_id)` in `route_change`) is display-only, so there is no
id-addressed mutation entry point to translate. Faithful to the spec's
words: look the id up (a miss yields `NotFound`); a command whose kind does
not match the device's kind yields `InvalidCommand`; a numeric value outside
its declared domain (fan speed outside [0,3], setpoint outside [10,30])
yields `OutOfRange`; otherwise the device's field is set. The pair returned
is (error if any, resulting registry); on error the registry is returned
unchanged. -/
def mutate (ds : Devices) (dev_id : String) (c : Command) :
    Option MutError × Devices :=
  match ds.get dev_id with
  | none => (some MutError.NotFound, ds)
  | some (Device.light _) =>
      match c with
      | Command.setLightOn b => (none, { ds with light1 := { is_on := b } })
      | _ => (some MutError.InvalidCommand, ds)
  | some (Device.fan _) =>
      match c with
      | Command.setFanSpeed n =>
          if 0 ≤ n ∧ n ≤ 3 then (none, { ds with fan1 := { speed := n } })
          else (some MutError.OutOfRange, ds)
      | _ => (some MutError.InvalidCommand, ds)
  | some (Device.thermostat _) =>
      match c with
      | Command.setThermostatSetpoint x =>
          if 10 ≤ x ∧ x ≤ 30 then
            (none, { ds with thermo1 := { setpoint := x } })
          else (some MutError.OutOfRange, ds)
      | _ => (some MutError.InvalidCommand, ds)
  | some (Device.door _) =>
      match c with
      | Command.setDoorLocked b => (none, { ds with door1 := { locked := b } })
      | _ => (some MutError.InvalidCommand, ds)

/-- C1: the total-power function is exactly the sum of the spec's
contributions — 40.0 iff the light is on, `speed * 20.0` for the fan, 500.0
iff the setpoint strictly exceeds 20.0, and 0 for the door (changing the
door changes nothing); and it returns 0.0 on (light off, speed 0, setpoint
19.0) and 580.0 on (light on, speed 2, setpoint 22.0). -/
theorem c1_total_power_formula :
    (∀ ds : Devices,
      compute_total_power ds =
        (if ds.light1.is_on then (40 : Rat) else 0)
          + (ds.fan1.speed : Rat) * 20
          + (if ds.thermo1.setpoint > 20 then (500 : Rat) else 0))
    ∧ (∀ (ds : Devices) (d : Door),
        compute_total_power { ds with door1 := d } = compute_total_power ds)
    ∧ compute_total_power { devices0 with thermo1 := { setpoint := 19 } } = 0
    ∧ compute_total_power
        { light1 := { is_on := true }, fan1 := { speed := 2 },
          thermo1 := { setpoint := 22 }, door1 := { locked := true } } = 580 := by
  refine ⟨?_, ?_, ?_, ?_⟩
  · intro ds
    simp only [compute_total_power]
    by_cases hl : ds.light1.is_on <;>
      by_cases ht : ds.thermo1.setpoint > 20 <;>
        simp [hl, ht]
  · intro ds d; rfl
  · norm_num [compute_total_power, devices0]
  · norm_num [compute_total_power]

/-- C5: the total-power computation is deterministic and effect-free: run as
a state-passing computation it returns the registry exactly as it found it,
its value is the pure `compute_total_power`, and a second call on the
returned state yields the identical value. -/
theorem c5_total_power_deterministic (ds : Devices) :
    (compute_total_power_run ds).2 = ds
    ∧ (compute_total_power_run ds).1 = compute_total_power ds
    ∧ (compute_total_power_run ds).1 =
        (compute_total_power_run (compute_total_power_run ds).2).1 :=
  ⟨rfl, rfl, rfl⟩

/-- C9: `toggle_light` and `toggle_door` are involutions on device state —
applying either twice restores the registry exactly — and a single
application changes exactly the one boolean field of the one device it
addresses, leaving every other device untouched. -/
theorem c9_toggle_involution (ds : Devices) :
    toggle_light (toggle_light ds) = ds
    ∧ toggle_door (toggle_door ds) = ds
    ∧ (toggle_light ds).light1.is_on = !ds.light1.is_on
    ∧ (toggle_light ds).fan1 = ds.fan1
    ∧ (toggle_light ds).thermo1 = ds.thermo1
    ∧ (toggle_light ds).door1 = ds.door1
    ∧ (toggle_door ds).door1.locked = !ds.door1.locked
    ∧ (toggle_door ds).light1 = ds.light1
    ∧ (toggle_door ds).fan1 = ds.fan1
    ∧ (toggle_door ds).thermo1 = ds.thermo1 := by
  obtain ⟨⟨b⟩, f, th, ⟨d⟩⟩ := ds
  simp [toggle_light, toggle_door]

/-- C10: `handle_message` ignores malformed messages without error: a
non-dict message, or a dict whose type tag is neither `"log"` nor
`"power_sample"`, leaves the log buffer, the power-history buffer and all
device state unchanged. -/
theorem c10_malformed_ignored (st : SysState) (tag : Option String) :
    handle_message st (Msg.otherDict tag) = st
    ∧ handle_message st Msg.nonDict = st :=
  ⟨rfl, rfl⟩

/-- Appending one sample keeps the buffer within the 50-entry cap. -/
theorem powerAppend_length_le (h : List (Nat × Rat)) (tp : Nat × Rat)
    (hle : h.length ≤ 50) : (powerAppend h tp).length ≤ 50 := by
  simp only [powerAppend]
  split <;> simp_all

/-- Within the cap, appending one sample keeps exactly the most recent
entries: the result is the appended list with its front dropped down to 50
entries. -/
theorem powerAppend_eq_drop (h : List (Nat × Rat)) (tp : Nat × Rat)
    (hle : h.length ≤ 50) :
    powerAppend h tp = (h ++ [tp]).drop (h.length + 1 - 50) := by
  simp only [powerAppend]
  split
  · next hc =>
      have h50 : h.length = 50 := by simp at hc; omega
      rw [h50]
  · next hc =>
      have h0 : h.length + 1 - 50 = 0 := by simp at hc; omega
      rw [h0, List.drop_zero]

/-- Folding any message list through `handle_message` preserves the power
buffer's 50-entry bound. -/
theorem foldl_handle_length_le (msgs : List Msg) :
    ∀ st : SysState, st.power_history.length ≤ 50 →
      (List.foldl handle_message st msgs).power_history.length ≤ 50 := by
  induction msgs with
  | nil => intro st h; simpa using h
  | cons m rest ih =>
      intro st h
      rw [List.foldl_cons]
      apply ih
      cases m with
      | log e => simpa [handle_message] using h
      | power_sample t p => exact powerAppend_length_le _ _ h
      | otherDict tag => simpa [handle_message] using h
      | nonDict => simpa [handle_message] using h

/-- Folding a list of power samples through `handle_message` keeps exactly
the 50 most recent entries: the resulting buffer is the concatenation of
the old buffer and the delivered pairs, with the front dropped down to 50
entries. -/
theorem foldl_power_samples (l : List (Nat × Rat)) :
    ∀ st : SysState, st.power_history.length ≤ 50 →
      (List.foldl handle_message st
          (l.map fun tp => Msg.power_sample tp.1 tp.2)).power_history
        = (st.power_history ++ l).drop
            (st.power_history.length + l.length - 50) := by
  induction l with
  | nil =>
      intro st h
      simp [Nat.sub_eq_zero_of_le h]
  | cons a rest ih =>
      intro st h
      rw [List.map_cons, List.foldl_cons]
      have step : handle_message st (Msg.power_sample a.1 a.2)
          = { st with power_history := powerAppend st.power_history a } := rfl
      rw [step]
      rw [ih _ (powerAppend_length_le _ _ h)]
      rw [powerAppend_eq_drop _ _ h]
      rw [← List.drop_append_of_le_length
            (by simp; omega :
              st.power_history.length + 1 - 50 ≤
                (st.power_history ++ [a]).length)]
      rw [List.drop_drop]
      have hX : (st.power_history ++ [a]) ++ rest
          = st.power_history ++ a :: rest := by simp
      rw [hX]
      congr 1
      simp only [List.length_drop, List.length_append, List.length_cons,
        List.length_nil]
      omega

/-- C2: the power-history buffer never exceeds 50 entries under any message
sequence from the initial state; and after delivering exactly the 60 samples
with sequence indices 0..59 (any wattages), the buffer holds exactly the 50
samples with indices 10..59 in increasing order — FIFO eviction of the
oldest, strict cap, never partial. -/
theorem c2_power_buffer_cap :
    (∀ msgs : List Msg,
      (List.foldl handle_message initial_state msgs).power_history.length ≤ 50)
    ∧ (∀ w : Nat → Rat,
        (List.foldl handle_message initial_state
            ((List.range 60).map fun i => Msg.power_sample i (w i))).power_history
          = ((List.range 60).map fun i => (i, w i)).drop 10
        ∧ ((List.foldl handle_message initial_state
              ((List.range 60).map fun i =>
                Msg.power_sample i (w i))).power_history).map Prod.fst
            = List.range' 10 50) := by
  constructor
  · intro msgs
    exact foldl_handle_length_le msgs initial_state (by simp [initial_state])
  · intro w
    have hmap : ((List.range 60).map fun i => (i, w i)).map
        (fun tp => Msg.power_sample tp.1 tp.2)
        = (List.range 60).map fun i => Msg.power_sample i (w i) := by
      rw [List.map_map]; rfl
    have key := foldl_power_samples ((List.range 60).map fun i => (i, w i))
      initial_state (by simp [initial_state])
    rw [hmap] at key
    have hr : (initial_state.power_history
          ++ ((List.range 60).map fun i => (i, w i))).drop
            (initial_state.power_history.length
              + ((List.range 60).map fun i => (i, w i)).length - 50)
        = ((List.range 60).map fun i => (i, w i)).drop 10 := by
      simp [initial_state]
    rw [hr] at key
    refine ⟨key, ?_⟩
    rw [key, List.map_drop, List.map_map]
    have hcomp : (Prod.fst ∘ fun i : Nat => (i, w i)) = id := rfl
    rw [hcomp, List.map_id]
    decide

/-- C6: the sampler's published samples carry sequence indices starting at 0
and increasing by exactly one per tick with no reordering: the messages of a
run of `n` ticks are exactly `power_sample i` for `i = 0, …, n-1`, in that
order (the n-th sample published carries index n). -/
theorem c6_sampler_sequence (σ : Nat → Devices) (n : Nat) :
    simulator_task σ 0 n
      = (List.range n).map fun i =>
          Msg.power_sample i (compute_total_power (σ i)) := by
  have general : ∀ (m t : Nat),
      simulator_task σ t m
        = (List.range' t m).map fun i =>
            Msg.power_sample i (compute_total_power (σ i)) := by
    intro m
    induction m with
    | zero => intro t; rfl
    | succ k ih =>
        intro t
        rw [List.range'_succ, List.map_cons, ← ih (t + 1)]
        rfl
  rw [general, List.range_eq_range']

/-- C7: the log buffer is unbounded append-only: delivering any list of log
events appends exactly their entries, in delivery order, after the existing
contents (so nothing is mutated or removed), and the resulting length is the
old length plus the number of log events received. -/
theorem c7_log_buffer_unbounded (st : SysState) (entries : List LogEntry) :
    (List.foldl handle_message st (entries.map Msg.log)).logs
      = st.logs ++ entries
    ∧ (List.foldl handle_message st (entries.map Msg.log)).logs.length
        = st.logs.length + entries.length := by
  have key : ∀ (es : List LogEntry) (s : SysState),
      (List.foldl handle_message s (es.map Msg.log)).logs = s.logs ++ es := by
    intro es
    induction es with
    | nil => intro s; simp
    | cons e rest ih =>
        intro s
        rw [List.map_cons, List.foldl_cons, ih]
        simp [handle_message]
  refine ⟨key entries st, ?_⟩
  rw [key entries st]
  simp

/-- C8: on any registry state within the declared domains (fan speed an
integer in [0,3], setpoint in [10,30]), the total power is nonnegative. -/
theorem c8_total_power_nonneg (ds : Devices)
    (h1 : 0 ≤ ds.fan1.speed) (h2 : ds.fan1.speed ≤ 3)
    (h3 : 10 ≤ ds.thermo1.setpoint) (h4 : ds.thermo1.setpoint ≤ 30) :
    0 ≤ compute_total_power ds := by
  have hs : (0 : Rat) ≤ (ds.fan1.speed : Rat) := by exact_mod_cast h1
  simp only [compute_total_power]
  by_cases hl : ds.light1.is_on <;>
    by_cases ht : ds.thermo1.setpoint > 20 <;>
      simp [hl, ht] <;> nlinarith

/-- Witness for C8 at the initial registry state. -/
theorem c8_witness :
    (0 ≤ devices0.fan1.speed ∧ devices0.fan1.speed ≤ 3
      ∧ 10 ≤ devices0.thermo1.setpoint ∧ devices0.thermo1.setpoint ≤ 30)
    ∧ 0 ≤ compute_total_power devices0 :=
  ⟨⟨by norm_num [devices0], by norm_num [devices0],
    by norm_num [devices0], by norm_num [devices0]⟩,
   c8_total_power_nonneg devices0 (by norm_num [devices0])
     (by norm_num [devices0]) (by norm_num [devices0])
     (by norm_num [devices0])⟩

/-- C3 counterexample: the fan card's change handler applied with the
out-of-range value 5 does not leave the speed at its prior value 0 — it
stores 5 (and the handler has no error path at all, so no OutOfRange
failure occurs). -/
theorem c3_counterexample :
    devices0.fan1.speed = 0
    ∧ (on_change_fan devices0 5).fan1.speed = 5
    ∧ (on_change_fan devices0 5).fan1.speed ≠ devices0.fan1.speed := by
  refine ⟨rfl, rfl, ?_⟩
  decide

/-- C3 amended: the fan change handler performs no range validation — it
stores the given integer as `fan1`'s speed unconditionally (out-of-range
values like 5 included) and changes no other device; the [0,3] domain is
enforced only by the slider configuration, not by the handler. -/
theorem c3_fan_stores_value_unchecked (ds : Devices) (value : Int) :
    (on_change_fan ds value).fan1.speed = value
    ∧ (on_change_fan ds value).light1 = ds.light1
    ∧ (on_change_fan ds value).thermo1 = ds.thermo1
    ∧ (on_change_fan ds value).door1 = ds.door1 :=
  ⟨rfl, rfl, rfl, rfl⟩

/-- C4: a mutation addressed to a device id outside the registry's key set
is a lookup-miss: it fails with `NotFound` and returns the registry with
every existing device's state unchanged. -/
theorem c4_mutate_unknown_id (ds : Devices) (dev_id : String) (c : Command)
    (h : ds.get dev_id = none) :
    (mutate ds dev_id c).1 = some MutError.NotFound
    ∧ (mutate ds dev_id c).2 = ds := by
  unfold mutate
  rw [h]
  exact ⟨rfl, rfl⟩

/-- Witness for C4 at the unknown id `"ghost"` on the initial registry. -/
theorem c4_witness :
    Devices.get devices0 "ghost" = none
    ∧ (mutate devices0 "ghost" (Command.setLightOn true)).1
        = some MutError.NotFound
    ∧ (mutate devices0 "ghost" (Command.setLightOn true)).2 = devices0 := by
  have h : Devices.get devices0 "ghost" = none := by rfl
  have thm := c4_mutate_unknown_id devices0 "ghost" (Command.setLightOn true) h
  exact ⟨h, thm.1, thm.2⟩
